import Mathlib

/-!
Verification of the vigil agent-safety engine (`src/rules.ts`, `src/policies.ts`,
`src/types.ts`) against its specification.

The development shallowly embeds the TypeScript source:
* the regular-expression rule corpus is embedded via a small executable regex
  engine (`Vigil.Regex`, `Vigil.rmatch`) covering exactly the JS `RegExp`
  features the corpus uses (literals, character classes, `.`, alternation,
  greedy repetition, `^`/`$` anchors, negative lookahead, the `i` and `m`
  flags); JS `String.prototype.match` corresponds to the unanchored search
  `Vigil.Pattern.test`;
* `serializeInput` / `checkAction` / `configure` are translated directly, with
  the process-wide mutable configuration passed as an explicit `VigilState` and
  the thrown-exception control flow (`JSON.stringify` on cyclic structures, a
  throwing violation callback — both land in `checkAction`'s `catch`) made
  explicit with `Option` results and a Boolean "throws" observation;
* wall-clock latency (`performance.now`, `latencyMs`) is not modelled: no
  claim under consideration depends on it.
-/

namespace Vigil

/-- Character comparison; under the JS `i` flag comparison is up to case. -/
def ceq (ci : Bool) (c d : Char) : Bool :=
  if ci then c.toLower == d.toLower else c == d

/-- JS `\s` (ASCII part; the corpus only ever meets ASCII white space). -/
def isSpaceChar (c : Char) : Bool :=
  c == ' ' || c == '\t' || c == '\n' || c == '\r' || c == '\x0b' || c == '\x0c'

/-- JS line terminators (for `.` exclusion and multiline anchors). -/
def isLineTerm (c : Char) : Bool :=
  c == '\n' || c == '\r' || c == '\u2028' || c == '\u2029'

/-- One item of a character class `[...]`. -/
inductive ClsItem where
  | ch (c : Char)
  | range (lo hi : Char)
  | digit
  | space
  | nspace
  | word

def inRange (lo hi c : Char) : Bool := decide (lo ≤ c) && decide (c ≤ hi)

/-- Membership of a character in one class item (JS canonicalisation under `i`). -/
def itemMem (ci : Bool) (it : ClsItem) (c : Char) : Bool :=
  match it with
  | .ch d => ceq ci d c
  | .range lo hi =>
      inRange lo hi c || (ci && (inRange lo hi c.toLower || inRange lo hi c.toUpper))
  | .digit => c.isDigit
  | .space => isSpaceChar c
  | .nspace => !(isSpaceChar c)
  | .word => c.isAlphanum || c == '_'

def clsMem (ci : Bool) (items : List ClsItem) (c : Char) : Bool :=
  items.any (fun it => itemMem ci it c)

/-- Abstract syntax of the `RegExp` subset used by the rule corpus. -/
inductive Regex where
  | eps
  | chr (c : Char)
  | cls (items : List ClsItem)
  | dot
  | bol
  | eol
  | cat (r1 r2 : Regex)
  | alt (r1 r2 : Regex)
  | star (r1 : Regex)
  | nla (r1 : Regex)

/--
One layer of the backtracking matcher, in continuation style over the
character list `cs`: matches the regex at position `p` and passes the end
position to the continuation `k`.  A `star` matches one body iteration (which
must consume at least one character) and then defers the remaining iterations
to `starCont`, the matcher of the next (lower-fuel) layer.
-/
def rmatchStep (ci ml : Bool) (cs : List Char)
    (starCont : Regex → Nat → (Nat → Bool) → Bool) :
    Regex → Nat → (Nat → Bool) → Bool
  | .eps, p, k => k p
  | .chr c, p, k =>
      match cs.get? p with
      | some d => ceq ci c d && k (p + 1)
      | none => false
  | .cls items, p, k =>
      match cs.get? p with
      | some d => clsMem ci items d && k (p + 1)
      | none => false
  | .dot, p, k =>
      match cs.get? p with
      | some d => !(isLineTerm d) && k (p + 1)
      | none => false
  | .bol, p, k =>
      (p == 0 || (ml && (match cs.get? (p - 1) with
                         | some d => isLineTerm d
                         | none => false))) && k p
  | .eol, p, k =>
      (p == cs.length || (ml && (match cs.get? p with
                                 | some d => isLineTerm d
                                 | none => false))) && k p
  | .cat r1 r2, p, k =>
      rmatchStep ci ml cs starCont r1 p (fun q => rmatchStep ci ml cs starCont r2 q k)
  | .alt r1 r2, p, k =>
      rmatchStep ci ml cs starCont r1 p k || rmatchStep ci ml cs starCont r2 p k
  | .star r1, p, k =>
      k p || rmatchStep ci ml cs starCont r1 p
              (fun q => decide (p < q) && starCont (.star r1) q k)
  | .nla r1, p, k =>
      !(rmatchStep ci ml cs starCont r1 p (fun _ => true)) && k p

/--
Backtracking matcher: `rmatch ci ml cs fuel r p k` holds when `r` matches some
stretch of `cs` starting at position `p` and the continuation `k` accepts the
end position.  `fuel` bounds the number of (necessarily character-consuming)
iterations the `star`s may take; `cs.length + 1` is enough for every regex.
-/
def rmatch (ci ml : Bool) (cs : List Char) : Nat → Regex → Nat → (Nat → Bool) → Bool
  | 0 => rmatchStep ci ml cs (fun _ _ _ => false)
  | fuel + 1 => rmatchStep ci ml cs (rmatch ci ml cs fuel)

/-- A compiled pattern: regex plus the `i` / `m` flags of the literal. -/
structure Pattern where
  regex : Regex
  ignoreCase : Bool
  multiline : Bool

/-- JS `str.match(pat) !== null`: unanchored search at every start position. -/
def Pattern.test (pat : Pattern) (s : String) : Bool :=
  let cs := s.data
  (List.range (cs.length + 1)).any
    (fun p => rmatch pat.ignoreCase pat.multiline cs (cs.length + 1) pat.regex p (fun _ => true))

/-- `/r/` — no flags. -/
def re (r : Regex) : Pattern := ⟨r, false, false⟩

/-- `/r/i`. -/
def rei (r : Regex) : Pattern := ⟨r, true, false⟩

/-- `/r/m`. -/
def rem (r : Regex) : Pattern := ⟨r, false, true⟩

/-- Literal string regex. -/
def rstr (s : String) : Regex :=
  s.data.foldr (fun c r => .cat (.chr c) r) .eps

/-- A regex that never matches (used for the empty alternation only). -/
def rfail : Regex := .nla .eps

/-- `(?:a|b|...)`. -/
def ralt : List Regex → Regex
  | [] => rfail
  | [r] => r
  | r :: rs => .alt r (ralt rs)

/-- Sequencing of a list of regexes. -/
def rcat (rs : List Regex) : Regex := rs.foldr .cat .eps

/-- `r+`. -/
def plus (r : Regex) : Regex := .cat r (.star r)

/-- `r?`. -/
def opt (r : Regex) : Regex := .alt r .eps

/-- `r{n}`. -/
def repN (n : Nat) (r : Regex) : Regex := rcat (List.replicate n r)

/-- `r{n,}`. -/
def atLeast (n : Nat) (r : Regex) : Regex := .cat (repN n r) (.star r)

/-- `\d`. -/
def digitR : Regex := .cls [.digit]

/-- `\s`. -/
def spaceR : Regex := .cls [.space]

/-- `\s+`. -/
def sP : Regex := plus spaceR

/-- `\s*`. -/
def sS : Regex := .star spaceR

/-- `\w`. -/
def wordR : Regex := .cls [.word]

/-- `.*`. -/
def dotStar : Regex := .star .dot

/-- `[\s\S]` — any character including line terminators. -/
def anyChar : Regex := .cls [.space, .nspace]

/-- `[a-zA-Z0-9]`. -/
def alnumC : Regex := .cls [.range 'a' 'z', .range 'A' 'Z', .range '0' '9']

/-- `[0-9]`. -/
def dig09 : Regex := .cls [.range '0' '9']

/-- The single-quote character (U+0027). -/
def sq : Char := '\x27'

/-- `['"]`. -/
def quoteCls : Regex := .cls [.ch sq, .ch '"']

/-- `[0-9a-f]`. -/
def hexC : Regex := .cls [.range '0' '9', .range 'a' 'f']

/-- `[_-]`. -/
def usDash : Regex := .cls [.ch '_', .ch '-']

/-- `[a-zA-Z0-9_-]`. -/
def alnumUsDash : Regex := .cls [.range 'a' 'z', .range 'A' 'Z', .range '0' '9', .ch '_', .ch '-']

/-- `instructions?`-style optional plural. -/
def optS (s : String) : Regex := rcat [rstr s, opt (.chr 's')]

/-!  The SSRF / internal-network pattern list (`SSRF_PATTERNS` in `rules.ts`). -/

/-- The private-network regex (9th SSRF pattern):
`(?:^|[/"=])(?:https?://)?(?:localhost|127.0.0.[0-9]+|0.0.0.0|10.\d+.\d+.\d+|172.(?:1[6-9]|2\d|3[01]).\d+.\d+|192.168.\d+.\d+)(?::\d+)?(?:/|$)`
(the leading class also holds the single-quote character; dots above are escaped in the source). -/
def ssrfPrivateNet : Regex :=
  rcat [ .alt .bol (.cls [.ch '/', .ch '"', .ch sq, .ch '=']),
         opt (rcat [rstr "http", opt (.chr 's'), rstr "://"]),
         ralt [ rstr "localhost",
                rcat [rstr "127.0.0.", plus dig09],
                rstr "0.0.0.0",
                rcat [rstr "10.", plus digitR, .chr '.', plus digitR, .chr '.', plus digitR],
                rcat [rstr "172.",
                      ralt [rcat [.chr '1', .cls [.range '6' '9']],
                            rcat [.chr '2', digitR],
                            rcat [.chr '3', .cls [.ch '0', .ch '1']]],
                      .chr '.', plus digitR, .chr '.', plus digitR],
                rcat [rstr "192.168.", plus digitR, .chr '.', plus digitR] ],
         opt (rcat [.chr ':', plus digitR]),
         .alt (.chr '/') .eol ]

def SSRF_PATTERNS : List Pattern :=
  [ rei (rstr "169.254.169.254"),
    rei (rstr "metadata.google.internal"),
    rei (rstr "100.100.100.200"),
    rei (rstr "169.254.170.2"),
    rei (rstr "fd00:ec2::254"),
    rei (rstr "[::ffff:169.254.169.254]"),
    rei (rstr "0x7f"),
    re (rstr "2852039166"),
    rei ssrfPrivateNet,
    rei (rcat [rstr "kubelet:", plus digitR]),
    rei (rcat [rstr "localhost:", plus digitR, .chr '/',
               ralt [rstr "api", rstr "admin", rcat [.chr 'v', .cls [.ch '1', .ch '2']],
                     rstr "health", rstr "metrics", rstr "debug"]]),
    rei (rcat [.bol, ralt [rstr "file", rstr "gopher", rstr "dict", rstr "ftp", rstr "ldap"],
               rstr "://"]) ]

/-!  Destructive-command patterns (`DESTRUCTIVE_COMMANDS` in `rules.ts`). -/

/-- `[rfvdi]`. -/
def rfvdi : Regex := .cls [.ch 'r', .ch 'f', .ch 'v', .ch 'd', .ch 'i']

def DESTRUCTIVE_COMMANDS : List Pattern :=
  [ rei (rcat [rstr "rm", sP, .star (rcat [.chr '-', plus rfvdi, sP]), .chr '/']),
    rei (rcat [rstr "rm", sP, .chr '-', .star rfvdi, sP, rstr "~/"]),
    rei (rcat [rstr "rm", sP, .chr '-', .star rfvdi, sP, .chr '*']),
    rei (rstr "mkfs"),
    rei (rcat [rstr "dd", sP, rstr "if=", dotStar, rstr "of=/dev/"]),
    rei (rstr "shred"),
    rei (rstr "wipefs"),
    rei (rstr "/dev/tcp/"),
    rei (rstr "/dev/udp/"),
    rei (rcat [rstr "bash", sP, rstr "-i", sP, rstr ">&"]),
    rei (rcat [rstr "nc", sP, .star (rcat [.chr '-', plus (.cls [.range 'a' 'z']), sP]),
               rstr "-e", sP, rstr "/bin"]),
    rei (rcat [rstr "ncat", dotStar, rstr "-e", sP, rstr "/bin"]),
    rei (rcat [rstr "python", opt (.cls [.ch '2', .ch '3']), sP, rstr "-c", sP, quoteCls,
               rstr "import", sP, ralt [rstr "socket", rstr "os", rstr "subprocess"]]),
    rei (rcat [rstr "perl", sP, rstr "-e", sP, quoteCls, dotStar, rstr "socket"]),
    rei (rcat [rstr "ruby", sP, rstr "-rsocket"]),
    rei (rcat [rstr "socat", dotStar, rstr "exec"]),
    rei (rcat [rstr "telnet", dotStar, .chr '|', dotStar, .alt (rstr "bash") (rstr "sh")]),
    rei (rcat [rstr "chmod", sP, .star (.cls [.range '0' '7']),
               .cls [.ch '4', .ch '5', .ch '6', .ch '7'], repN 2 (.cls [.range '0' '7']),
               sP, .chr '/', ralt [rstr "etc", rstr "usr", rstr "bin", rstr "sbin"]]),
    rei (rcat [rstr "chown", sP, rstr "root"]),
    rei (rcat [rstr "passwd", sP, rstr "root"]),
    rei (rstr "visudo"),
    rei (rcat [rstr "unset", sP, ralt [rstr "PATH", rstr "HOME", rstr "USER", rstr "SHELL"]]),
    rei (rcat [rstr "export", sP, rstr "PATH", sS, .chr '=', sS, .eol]),
    rei (rcat [rstr "kubectl", sP, rstr "delete", sP, .alt (rstr "namespace") (rstr "ns"),
               sP, rstr "production"]),
    rei (rcat [rstr "docker", sP, .alt (rstr "rm") (rstr "rmi"), sP, rstr "-f", dotStar,
               rstr "--all"]),
    rei (rcat [rstr "docker", sP, rstr "system", sP, rstr "prune", sP, rstr "-af"]) ]

/-!  Data-exfiltration patterns (`EXFIL_PATTERNS` in `rules.ts`). -/

def EXFIL_PATTERNS : List Pattern :=
  [ rei (rcat [rstr "curl", dotStar,
               ralt [rstr "evil", rstr "attacker", rstr "malicious", rstr "webhook.site",
                     rstr "ngrok", rstr "requestbin", rstr "pipedream"]]),
    rei (rcat [rstr "wget", dotStar, ralt [rstr "evil", rstr "attacker", rstr "malicious"]]),
    rei (rcat [rstr "curl", dotStar, rstr "$(cat", sP, rstr "/etc/"]),
    rei (rcat [rstr "curl", dotStar, rstr "-d", dotStar,
               ralt [rstr "password", rstr "secret", rstr "key", rstr "token",
                     rstr "credentials"]]),
    re (rstr "/etc/shadow"),
    rei (rcat [rstr "/etc/passwd", dotStar, ralt [rstr "curl", rstr "wget", rstr "nc", rstr "send"]]),
    re (rcat [rstr ".ssh/id_", ralt [rstr "rsa", rstr "ed25519", rstr "ecdsa"], opt (rstr ".pub")]),
    re (rstr ".aws/credentials"),
    re (rcat [rstr ".env", .alt (.chr '.') .eol]) ]

/-!  SQL-injection patterns (`SQL_INJECTION` in `rules.ts`). -/

def SQL_INJECTION : List Pattern :=
  [ rei (rcat [.chr ';', sS, rstr "DROP", sP, rstr "TABLE"]),
    rei (rcat [.chr ';', sS, rstr "DELETE", sP, rstr "FROM", sP, plus wordR, sS,
               .alt (.chr ';') .eol]),
    rei (rcat [.chr ';', sS, rstr "TRUNCATE", sP, rstr "TABLE"]),
    rei (rcat [.chr ';', sS, rstr "ALTER", sP, rstr "TABLE", sP, plus wordR, sP, rstr "DROP"]),
    rei (rcat [rstr "UNION", sP, opt (rcat [rstr "ALL", sP]), rstr "SELECT"]),
    rei (rcat [.alt (rstr "OR") (rstr "AND"), sP, opt quoteCls, .chr '1', opt quoteCls, sS,
               .chr '=', sS, opt quoteCls, .chr '1']),
    rei (rcat [.chr ';', sS, rstr "UPDATE", sP, plus wordR, sP, rstr "SET", sP, dotStar,
               rstr "WHERE", sP, .chr '1', sS, .chr '=', sS, .chr '1']),
    rem (rcat [rstr "--", sS, .eol]) ]

/-!  Path-traversal patterns (`PATH_TRAVERSAL` in `rules.ts`). -/

def PATH_TRAVERSAL : List Pattern :=
  [ re (rstr "../"),
    re (rcat [rstr "..%2", .cls [.ch 'f', .ch 'F']]),
    re (rcat [rstr "..\\", .nla (.chr '\\')]),
    re (rcat [rstr "/etc/", ralt [rstr "passwd", rstr "shadow", rstr "hosts", rstr "sudoers"]]),
    re (rstr "/proc/self"),
    re (rcat [rstr "/root/.", ralt [rstr "bash", rstr "ssh", rstr "gnupg"]]) ]

/-!  Prompt-injection patterns (`PROMPT_INJECTION` in `rules.ts`). -/

def PROMPT_INJECTION : List Pattern :=
  [ rei (rcat [rstr "ignore", sP, opt (rcat [rstr "all", sP]),
               ralt [rstr "previous", rstr "prior", rstr "above"], sP,
               ralt [optS "instruction", optS "rule", optS "guideline"]]),
    rei (rcat [rstr "disregard", sP, opt (rcat [rstr "your", sP]),
               ralt [optS "instruction", optS "rule", optS "guideline", rstr "training"]]),
    rei (rcat [rstr "you", sP, rstr "are", sP, rstr "now", sP,
               ralt [rstr "DAN", rstr "unrestricted", rstr "unfiltered", rstr "jailbroken"]]),
    rei (rcat [ralt [rstr "new", rstr "override", rcat [rstr "update", opt (.chr 'd')]], sP,
               opt (rcat [rstr "system", sP]),
               ralt [rstr "prompt", rstr "directive", rstr "instruction"]]),
    rei (rcat [rstr "developer", sP, rstr "mode", sP,
               ralt [rstr "enabled", rstr "activated", rstr "on"]]),
    rei (rcat [rstr "all", sP, optS "restriction", sP, opt (rcat [rstr "are", sP]),
               ralt [rstr "lifted", rstr "removed", rstr "disabled"]]),
    rei (rcat [rstr "pretend", sP, rstr "you", sP, .alt (rstr "are") (rstr "have"), sP,
               rstr "no", sP, ralt [optS "restriction", optS "rule", optS "limit"]]),
    rei (rcat [rstr "output", sP, opt (rcat [rstr "your", sP]), opt (rcat [rstr "system", sP]),
               rstr "prompt"]),
    rei (rcat [rstr "reveal", sP, opt (rcat [rstr "your", sP]), opt (rcat [rstr "system", sP]),
               .alt (rstr "prompt") (optS "instruction")]),
    rei (ralt [rstr "[INST]", rstr "[/INST]", rstr "<|im_start|>", rstr "<|system|>"]),
    rei (rcat [rstr "<!--", .star anyChar, ralt [rstr "system", rstr "prompt", rstr "instruction"],
               .star anyChar, rstr "-->"]) ]

/-!  Encoding / obfuscation patterns (`ENCODING_ATTACKS` in `rules.ts`). -/

def ENCODING_ATTACKS : List Pattern :=
  [ rei (rcat [rstr "base64", sP, rstr "-d"]),
    rei (rcat [rstr "atob", sS, .chr '(']),
    rei (rcat [rstr "btoa", sS, .chr '(']),
    rei (rcat [rstr "eval", sS, .chr '(', sS,
               ralt [rstr "atob", rstr "Buffer.from", rstr "decode", rstr "fromhex"]]),
    rei (rcat [rstr "exec", sS, .chr '(', sS,
               ralt [rstr "bytes.fromhex", rstr "codecs.decode", rstr "compile"]]),
    rei (rcat [rstr "\\x", hexC, hexC, dotStar, rstr "\\x", hexC, hexC]),
    rei (rcat [rstr "$(printf", sP, .chr sq, rstr "\\x"]),
    rei (rstr "rot13"),
    rei (.alt (rstr "charCodeAt")
              (rcat [rstr "fromCharCode", dotStar, .alt (rstr "eval") (rstr "exec")])) ]

/-!  Credential patterns (`CREDENTIAL_PATTERNS` in `rules.ts`). -/

def CREDENTIAL_PATTERNS : List Pattern :=
  [ rei (rcat [ralt [rcat [rstr "api", opt usDash, rstr "key"],
                     rcat [rstr "secret", opt usDash, rstr "key"],
                     rcat [rstr "access", opt usDash, rstr "token"],
                     rcat [rstr "private", opt usDash, rstr "key"]],
               sS, .cls [.ch '=', .ch ':'], sS, opt quoteCls, atLeast 20 alnumUsDash]),
    re (rcat [rstr "sk-", atLeast 20 alnumC]),
    re (rcat [rstr "ghp_", repN 36 alnumC]),
    re (rcat [ralt [rstr "AKIA", rstr "ABIA", rstr "ACCA", rstr "ASIA"],
              repN 16 (.cls [.range 'A' 'Z', .range '0' '9'])]),
    re (rcat [ralt [rstr "xoxb", rstr "xoxp", rstr "xapp"], .chr '-',
              plus (.cls [.range 'a' 'z', .range 'A' 'Z', .range '0' '9', .ch '-'])]),
    re (rcat [rstr "-----BEGIN ", opt (.alt (rstr "RSA ") (rstr "EC ")),
              rstr "PRIVATE KEY-----"]) ]

/-!  Data model (`types.ts`). -/

/-- `Decision` in `types.ts`. -/
inductive Decision where
  | ALLOW
  | BLOCK
  | ESCALATE
deriving DecidableEq, Repr

/-- `RiskLevel` in `types.ts`. -/
inductive RiskLevel where
  | low
  | medium
  | high
  | critical
deriving DecidableEq, Repr

/-- `RuleCategory` in `types.ts`. -/
inductive RuleCategory where
  | ssrf
  | destructive
  | exfiltration
  | sql_injection
  | path_traversal
  | prompt_injection
  | encoding_attack
  | credential_leak
deriving DecidableEq, Repr

/-- `VigilMode` in `types.ts`. -/
inductive VigilMode where
  | enforce
  | warn
  | log
deriving DecidableEq, Repr

/-!
A JavaScript value occurring as a structured `params` payload.  Arrays and
objects are spelled with their own spine constructors so every recursion over
them is structural.  `cyclic` stands for a structure on which
`JSON.stringify` throws (for example a self-referencing object): an inductive
value cannot literally contain a cycle, so the thrown serialization is made a
constructor of its own.
-/
mutual
inductive JsValue where
  | str (s : String)
  | num (n : Int)
  | bool (b : Bool)
  | nullv
  | arr (elems : JsArr)
  | obj (fields : JsObj)
  | cyclic
inductive JsArr where
  | nil
  | cons (hd : JsValue) (tl : JsArr)
inductive JsObj where
  | nil
  | cons (key : String) (val : JsValue) (tl : JsObj)
end

/-- JSON string escaping of one character (the cases relevant to the corpus). -/
def jsonEscape (c : Char) : String :=
  if c == '"' then "\\\""
  else if c == '\\' then "\\\\"
  else if c == '\n' then "\\n"
  else if c == '\t' then "\\t"
  else if c == '\r' then "\\r"
  else String.singleton c

/-- JSON rendering of a string literal. -/
def jsonQuote (s : String) : String :=
  "\"" ++ String.join (s.data.map jsonEscape) ++ "\""

/-!
`JSON.stringify`, returning `none` when serialization throws
(`JsValue.cyclic` anywhere in the structure).
-/
mutual
def stringify : JsValue → Option String
  | .str s => some (jsonQuote s)
  | .num n => some (toString n)
  | .bool b => some (if b then "true" else "false")
  | .nullv => some "null"
  | .arr es =>
      match stringifyArr es with
      | some ss => some ("[" ++ String.intercalate "," ss ++ "]")
      | none => none
  | .obj fs =>
      match stringifyObj fs with
      | some ss => some ("\x7b" ++ String.intercalate "," ss ++ "\x7d")
      | none => none
  | .cyclic => none
def stringifyArr : JsArr → Option (List String)
  | .nil => some []
  | .cons v vs =>
      match stringify v, stringifyArr vs with
      | some s, some ss => some (s :: ss)
      | _, _ => none
def stringifyObj : JsObj → Option (List String)
  | .nil => some []
  | .cons key v fs =>
      match stringify v, stringifyObj fs with
      | some s, some ss => some ((jsonQuote key ++ ":" ++ s) :: ss)
      | _, _ => none
end

/-- The `params` union `Record<string, unknown> | string` in `types.ts`. -/
inductive ParamsVal where
  | str (s : String)
  | obj (v : JsValue)

/-- The `context` union `string | string[]` in `types.ts`. -/
inductive ContextVal where
  | str (s : String)
  | arr (items : List String)

/-- `VigilInput` in `types.ts`; `none` stands for an absent (or `undefined`/`null`) field. -/
structure VigilInput where
  agent : Option String := none
  tool : Option String := none
  params : Option ParamsVal := none
  parameters : Option ParamsVal := none
  role : Option String := none
  context : Option ContextVal := none

/--
`VigilResult` in `types.ts` without the `latencyMs` field: wall-clock latency
is not modelled.  For results of a pattern match the `reason` is modelled as
the category description followed by a fixed marker, without the excerpts of
the pattern source and matched substring that the implementation appends
(no claim under study depends on them); the two no-match / parsing-error
reason strings are modelled exactly.
-/
structure VigilResult where
  decision : Decision
  rule : Option RuleCategory
  confidence : Rat
  risk_level : RiskLevel
  reason : String
deriving DecidableEq

/--
A violation callback.  Only its control effect on `checkAction` matters for
the claims under study: the Boolean result records whether the invocation
throws (`true` = the callback raises an error, which in the implementation
propagates into `checkAction`'s `catch` block).
-/
def Callback := VigilResult → VigilInput → Bool

/-- `VigilConfig` in `types.ts`: a partial configuration. -/
structure VigilConfig where
  mode : Option VigilMode := none
  onViolation : Option Callback := none

/-- The process-wide mutable state of `rules.ts` (`currentMode`, `violationCallback`),
passed explicitly.  The initial values are those of the module declarations. -/
structure VigilState where
  currentMode : VigilMode := .enforce
  violationCallback : Option Callback := none

/-- `configure` in `rules.ts`: partial merge of the supplied fields. -/
def configure (st : VigilState) (config : VigilConfig) : VigilState :=
  { currentMode := match config.mode with
                   | some m => m
                   | none => st.currentMode,
    violationCallback := match config.onViolation with
                         | some cb => some cb
                         | none => st.violationCallback }

/-- `RuleSet` in `types.ts`. -/
structure RuleSet where
  patterns : List Pattern
  decision : Decision
  risk : RiskLevel
  desc : String

/-- The `ssrf` entry of `RULE_SETS`. -/
def ssrfSet : RuleSet := ⟨SSRF_PATTERNS, .BLOCK, .critical, "SSRF/internal network access"⟩

/-- The `destructive` entry of `RULE_SETS`. -/
def destructiveSet : RuleSet := ⟨DESTRUCTIVE_COMMANDS, .BLOCK, .critical, "Destructive command"⟩

/-- The `exfiltration` entry of `RULE_SETS`. -/
def exfiltrationSet : RuleSet := ⟨EXFIL_PATTERNS, .BLOCK, .critical, "Data exfiltration"⟩

/-- The `sql_injection` entry of `RULE_SETS`. -/
def sqlInjectionSet : RuleSet := ⟨SQL_INJECTION, .BLOCK, .high, "SQL injection"⟩

/-- The `path_traversal` entry of `RULE_SETS`. -/
def pathTraversalSet : RuleSet := ⟨PATH_TRAVERSAL, .BLOCK, .high, "Path traversal"⟩

/-- The `prompt_injection` entry of `RULE_SETS`. -/
def promptInjectionSet : RuleSet := ⟨PROMPT_INJECTION, .BLOCK, .high, "Prompt injection"⟩

/-- The `encoding_attack` entry of `RULE_SETS`. -/
def encodingAttackSet : RuleSet := ⟨ENCODING_ATTACKS, .BLOCK, .high, "Encoding/obfuscation attack"⟩

/-- The `credential_leak` entry of `RULE_SETS`. -/
def credentialLeakSet : RuleSet := ⟨CREDENTIAL_PATTERNS, .ESCALATE, .critical, "Credential exposure"⟩

/-- `RULE_SETS` in `rules.ts`, in declaration order (which `Object.entries`
preserves for string keys). -/
def RULE_SETS : List (RuleCategory × RuleSet) :=
  [ (.ssrf, ssrfSet),
    (.destructive, destructiveSet),
    (.exfiltration, exfiltrationSet),
    (.sql_injection, sqlInjectionSet),
    (.path_traversal, pathTraversalSet),
    (.prompt_injection, promptInjectionSet),
    (.encoding_attack, encodingAttackSet),
    (.credential_leak, credentialLeakSet) ]

/-- The `params ?? parameters` nullish coalescing in `serializeInput`. -/
def paramsOfInput (input : VigilInput) : Option ParamsVal :=
  match input.params with
  | some p => some p
  | none => input.parameters

/--
The contribution of the coalesced params value to `parts`
(`if (params) parts.push(typeof params === 'string' ? params : JSON.stringify(params))`).
Mirrors JS truthiness — an empty string is falsy (nothing pushed), an object
(even an empty one) is truthy.  `none` models `JSON.stringify` throwing.
-/
def paramsParts : Option ParamsVal → Option (List String)
  | some (.str s) => if s = "" then some [] else some [s]
  | some (.obj v) =>
      match stringify v with
      | some s => some [s]
      | none => none
  | none => some []

/--
The contribution of `context` to `parts`
(`if (input.context) parts.push(Array.isArray(...) ? join(' ') : String(...))`).
An array — even an empty one — is truthy; an empty string is falsy.
-/
def contextParts : Option ContextVal → List String
  | some (.str s) => if s = "" then [] else [s]
  | some (.arr items) => [String.intercalate " " items]
  | none => []

/-- The contribution of a plain string field to `parts`
(`if (input.tool) parts.push(input.tool)` and likewise for agent/role). -/
def strParts : Option String → List String
  | some t => if t = "" then [] else [t]
  | none => []

/--
`serializeInput` in `rules.ts`: push params, context, tool, agent, role in
that order, then `parts.join(' ')`.  Returns `none` when `JSON.stringify`
throws (the exception propagates to `checkAction`'s `catch`).
-/
def serializeInput (input : VigilInput) : Option String :=
  match paramsParts (paramsOfInput input) with
  | none => none
  | some pp =>
      some (String.intercalate " "
        (pp ++ contextParts input.context ++ strParts input.tool
            ++ strParts input.agent ++ strParts input.role))

/-- Does some pattern of the rule set match the search text? -/
def matchesRuleSet (rs : RuleSet) (s : String) : Bool :=
  rs.patterns.any (fun pat => pat.test s)

/-- The first (in declaration order) category whose rule set matches —
the category `checkAction`'s double loop stops at. -/
def firstMatch (s : String) : Option (RuleCategory × RuleSet) :=
  RULE_SETS.find? (fun cr => matchesRuleSet cr.2 s)

/-- The fail-open result built in `checkAction`'s `catch` block. -/
def parseErrorResult : VigilResult :=
  { decision := .ALLOW, rule := none, confidence := 0.5, risk_level := .medium,
    reason := "Input parsing error — allowing with reduced confidence." }

/-- The result built when no pattern matched. -/
def noMatchResult : VigilResult :=
  { decision := .ALLOW, rule := none, confidence := 0.7, risk_level := .low,
    reason := "No rule patterns matched." }

/-- The result built on a pattern match (mode-adjusted decision, matched
category reported). -/
def matchResult (st : VigilState) (category : RuleCategory) (ruleSet : RuleSet) : VigilResult :=
  { decision := if st.currentMode = .enforce then ruleSet.decision else .ALLOW,
    rule := some category,
    confidence := 0.95,
    risk_level := ruleSet.risk,
    reason := ruleSet.desc ++ ": matched pattern" }

/-- The observable outcome of one `checkAction` call: the returned record and
the `(result, input)` argument of the violation-callback invocation, if the
callback was invoked. -/
structure CheckOutcome where
  result : VigilResult
  callbackCall : Option (VigilResult × VigilInput)

/--
`checkAction` in `rules.ts`.  The `try`/`catch` control flow is explicit:
a serialization failure, or an error raised by the violation callback, is
caught by the same `catch` block, which returns `parseErrorResult`.
-/
def checkAction (st : VigilState) (input : VigilInput) : CheckOutcome :=
  match serializeInput input with
  | none => { result := parseErrorResult, callbackCall := none }
  | some searchText =>
      match firstMatch searchText with
      | some (category, ruleSet) =>
          let result := matchResult st category ruleSet
          match st.violationCallback with
          | some cb =>
              if ruleSet.decision ≠ .ALLOW then
                if cb result input then
                  { result := parseErrorResult, callbackCall := some (result, input) }
                else
                  { result := result, callbackCall := some (result, input) }
              else
                { result := result, callbackCall := none }
          | none => { result := result, callbackCall := none }
      | none => { result := noMatchResult, callbackCall := none }

/--
The registered violation callback (if any) does not raise an error on this
input.  This isolates the claims about decisions and ordering from the
separately analysed defect that a throwing callback is swallowed by
`checkAction`'s generic `catch` block.
-/
def CallbackOk (st : VigilState) (input : VigilInput) : Prop :=
  ∀ cb, st.violationCallback = some cb → ∀ r, cb r input = false

/-- The module-initial state of `rules.ts`: mode `enforce`, no callback. -/
def initialState : VigilState := {}

/-- A callback that always raises an error. -/
def throwingCallback : Callback := fun _ _ => true

/-- A callback that returns normally. -/
def quietCallback : Callback := fun _ _ => false

/-- Enforce-mode state with a throwing violation callback (for C4). -/
def throwCbState : VigilState :=
  { currentMode := .enforce, violationCallback := some throwingCallback }

/-- Warn-mode state with a well-behaved violation callback (for C6). -/
def warnCbState : VigilState :=
  { currentMode := .warn, violationCallback := some quietCallback }

/-- A request whose params trip the `shred` destructive pattern. -/
def shredInput : VigilInput := { params := some (.str "shred") }

/-- A request matching both a destructive pattern (`shred`) and a
credential-leak pattern (`sk-` + 22 alphanumerics) — for C7. -/
def dualMatchInput : VigilInput :=
  { params := some (.str "shred sk-abcdefghijklmnopqrstuv") }

/-- A request matching only a credential-leak pattern. -/
def credOnlyInput : VigilInput := { params := some (.str "sk-abcdefghijklmnopqrstuv") }

/-- A request with no tool, no params and no context, whose agent field
nevertheless trips a destructive pattern — for C8. -/
def agentOnlyInput : VigilInput := { agent := some "shred" }

/-- The empty request: every field absent. -/
def emptyInput : VigilInput := {}

/-- A request whose structured params cannot be serialized (`JSON.stringify`
throws) — for C5. -/
def cyclicInput : VigilInput := { params := some (.obj .cyclic) }

/-- A request with present-but-empty params and a non-empty tool — for C3. -/
def emptyParamsInput : VigilInput := { params := some (.str ""), tool := some "read" }

/-!  Spec-words serializers for the refinement claim C3. -/

/--
Modelled from the claim C3 wording: the normalized string is the space-joined
concatenation, in the fixed order params/context/tool/agent/role, where a
field that is present but empty contributes an empty segment rather than
being omitted, and the params segment is absent only when neither `params`
nor its alias is present.  (This is the claim's contract, for comparison with
the implementation `serializeInput`.)
-/
def serializeClaimC3 (input : VigilInput) : Option String :=
  match
    (match paramsOfInput input with
     | some (.str s) => some [s]
     | some (.obj v) =>
         match stringify v with
         | some s => some [s]
         | none => none
     | none => some [])
  with
  | none => none
  | some paramParts =>
      let ctxParts : List String :=
        match input.context with
        | some (.str s) => [s]
        | some (.arr items) => [String.intercalate " " items]
        | none => []
      let toolParts : List String :=
        match input.tool with
        | some t => [t]
        | none => []
      let agentParts : List String :=
        match input.agent with
        | some a => [a]
        | none => []
      let roleParts : List String :=
        match input.role with
        | some r => [r]
        | none => []
      some (String.intercalate " "
        (paramParts ++ ctxParts ++ toolParts ++ agentParts ++ roleParts))

/-- The contribution of a plain string field under the amended contract:
omitted when absent or empty, itself otherwise. -/
def stringSegment : Option String → Option String
  | none => none
  | some s => if s = "" then none else some s

/-- The contribution of the context field under the amended contract: a
string behaves like a plain string field; a sequence — even an empty one —
contributes its space-joined elements. -/
def contextSegment : Option ContextVal → Option String
  | none => none
  | some (.str s) => if s = "" then none else some s
  | some (.arr items) => some (String.intercalate " " items)

/-- The contribution of the params value under the amended contract:
`none` = serialization failure, `some none` = no segment, `some (some s)` =
segment `s`.  A present-but-empty params string is omitted (and does not fall
back to the alias); a structured mapping contributes its JSON text or fails. -/
def paramsSegment : Option ParamsVal → Option (Option String)
  | none => some none
  | some (.str s) => if s = "" then some none else some (some s)
  | some (.obj v) =>
      match stringify v with
      | some s => some (some s)
      | none => none

/--
Modelled from the claim C3 as amended by the counterexample: the normalized
string is the space-join of the present segments in the fixed order
params/context/tool/agent/role, where string-typed fields that are empty are
omitted rather than contributing an empty segment (an empty *sequence*
context still contributes an empty segment), and the alias is consulted only
when `params` itself is absent.
-/
def serializeSpecAmended (input : VigilInput) : Option String :=
  match paramsSegment (paramsOfInput input) with
  | none => none
  | some pseg =>
      some (String.intercalate " "
        (([ pseg,
            contextSegment input.context,
            stringSegment input.tool,
            stringSegment input.agent,
            stringSegment input.role ] : List (Option String)).filterMap id))

/-!  The policy loader (`policies.ts`) with an explicit store for the shared
mutable objects, so that the reference structure of the shallow spread
`{ ...BUILTIN_POLICIES[name] }` is observable. -/

/-- The `network` rules block of `VigilPolicy` in `types.ts`. -/
structure NetworkRules where
  allowOutbound : Option Bool := none
  blockedDomains : Option (List String) := none
deriving DecidableEq

/-- The `rules` block of `VigilPolicy` in `types.ts`. -/
structure PolicyRules where
  allowedTools : Option (List String) := none
  blockedTools : Option (List String) := none
  blockedPatterns : Option (List (String × List String)) := none
  allowedPaths : Option (List String) := none
  blockedPaths : Option (List String) := none
  maxParams : Option (List (String × Int)) := none
  network : Option NetworkRules := none
deriving DecidableEq

/-- `PolicyTemplate` in `policies.ts`. -/
inductive PolicyTemplate where
  | restrictive
  | moderate
  | permissive
deriving DecidableEq

/-- The `rules` block of the built-in `restrictive` policy. -/
def restrictiveRules : PolicyRules :=
  { allowedTools := some ["read", "web_search"],
    blockedTools := some ["exec", "write", "delete", "admin"],
    blockedPatterns := some [("exec", ["*"]), ("write", ["*"]), ("http_request", ["*"])],
    allowedPaths := some ["/workspace/", "/tmp/"],
    blockedPaths := some ["/etc/", "/root/", "/var/", "/usr/", "/bin/", "/sbin/"],
    maxParams := some [("exec.timeout", 30)],
    network := some { allowOutbound := some false, blockedDomains := some ["*"] } }

/-- The `rules` block of the built-in `moderate` policy. -/
def moderateRules : PolicyRules :=
  { allowedTools := some ["exec", "read", "write", "web_search", "web_fetch", "db_query"],
    blockedTools := some ["admin", "deploy", "delete_namespace"],
    blockedPatterns := some
      [("exec", ["rm -rf /", "mkfs", "dd if=", "chmod 777", "curl * | bash"]),
       ("db_query", ["DROP TABLE", "TRUNCATE", "DELETE FROM * WHERE 1=1"])],
    allowedPaths := some ["/home/", "/workspace/", "/tmp/", "/var/log/"],
    blockedPaths := some ["/etc/shadow", "/root/.ssh/", "/root/.aws/"],
    maxParams := some [("exec.timeout", 300)],
    network := some
      { allowOutbound := some true,
        blockedDomains := some ["webhook.site", "ngrok.io", "requestbin.com", "pipedream.net"] } }

/-- The `rules` block of the built-in `permissive` policy. -/
def permissiveRules : PolicyRules :=
  { allowedTools := some ["*"],
    blockedTools := some [],
    blockedPatterns := some
      [("exec", ["rm -rf /", "mkfs", "dd if=*/dev/*", ":()\x7b :|:& \x7d;:"])],
    allowedPaths := some ["*"],
    blockedPaths := some [],
    maxParams := some [("exec.timeout", 600)],
    network := some { allowOutbound := some true, blockedDomains := some [] } }

/-- A top-level policy document object: its scalar fields plus a *reference*
(store address) to its `rules` block — the field JS copies by reference. -/
structure PolicyDoc where
  name : String
  description : String
  version : String
  rulesRef : Nat
deriving DecidableEq, Inhabited

/-- The store of live policy objects: top-level documents and `rules` blocks,
addressed by position. -/
structure PolicyHeap where
  docs : List PolicyDoc
  ruleBlocks : List PolicyRules

/-- The addresses of the three `BUILTIN_POLICIES` documents in the initial store. -/
def builtinAddr : PolicyTemplate → Nat
  | .restrictive => 0
  | .moderate => 1
  | .permissive => 2

instance : Inhabited PolicyRules := ⟨{}⟩

/-- The store at module initialisation: the three built-in documents, each
pointing at its own `rules` block. -/
def initialHeap : PolicyHeap :=
  { docs :=
      [ { name := "restrictive",
          description := "Maximum safety — blocks most tools, minimal autonomy",
          version := "1.0", rulesRef := 0 },
        { name := "moderate",
          description := "Balanced safety — allows common tools with guardrails",
          version := "1.0", rulesRef := 1 },
        { name := "permissive",
          description := "Minimal restrictions — trusts agent, blocks only critical threats",
          version := "1.0", rulesRef := 2 } ],
    ruleBlocks := [restrictiveRules, moderateRules, permissiveRules] }

/-- Read a document from the store. -/
def getDoc (h : PolicyHeap) (a : Nat) : PolicyDoc := h.docs.getD a default

/-- Read a `rules` block from the store. -/
def getRules (h : PolicyHeap) (a : Nat) : PolicyRules := h.ruleBlocks.getD a default

/--
`loadPolicy` on a built-in template name: the shallow spread
`{ ...BUILTIN_POLICIES[name] }` allocates a fresh top-level document whose
fields — including the `rules` reference — are copied from the built-in.
Returns the address of the fresh document.  (The file-path branch performs
filesystem I/O and is outside the scope of the claims studied here.)
-/
def loadPolicy (h : PolicyHeap) (t : PolicyTemplate) : Nat × PolicyHeap :=
  (h.docs.length, { h with docs := h.docs ++ [getDoc h (builtinAddr t)] })

/-- A caller mutation of a top-level field of the document at address `a`. -/
def setDocName (h : PolicyHeap) (a : Nat) (n : String) : PolicyHeap :=
  { h with docs := h.docs.set a { getDoc h a with name := n } }

/-- A caller mutation through a document's `rules` reference: overwrite the
shared `rules` block at address `a`. -/
def writeRules (h : PolicyHeap) (a : Nat) (rb : PolicyRules) : PolicyHeap :=
  { h with ruleBlocks := h.ruleBlocks.set a rb }

/-- The mutated `rules` block a caller writes in the C9 counterexample. -/
def mutatedRules : PolicyRules := { restrictiveRules with blockedTools := some [] }

/-- A request carrying both `params` and its `parameters` alias — for C10. -/
def aliasBothInput : VigilInput :=
  { params := some (.str "x"), parameters := some (.str "y") }

/-- A request exercising every segment kind of the normalizer — for the C3
witness: structured params, sequence context, tool, agent and role. -/
def richInput : VigilInput :=
  { agent := some "a1", tool := some "write", role := some "helper",
    params := some (.obj (.obj (.cons "k" (.str "v") .nil))),
    context := some (.arr ["hi", "there"]) }

/-!  ## Theorems -/

/-- `List.find?` returns the element at the first index satisfying the
predicate. -/
theorem find_first_eq {α : Type _} (p : α → Bool) (l : List α) :
    ∀ (i : Nat) (hi : i < l.length),
      p (l.get ⟨i, hi⟩) = true →
      (∀ j (hj : j < i), p (l.get ⟨j, Nat.lt_trans hj hi⟩) = false) →
      l.find? p = some (l.get ⟨i, hi⟩) := by
  induction l with
  | nil => intro i hi _ _; exact absurd hi (Nat.not_lt_zero i)
  | cons a t ih =>
      intro i hi hp hfirst
      cases i with
      | zero =>
          simp only [List.get] at hp
          simp [List.find?, hp]
      | succ n =>
          have ha : p a = false := hfirst 0 (Nat.succ_pos n)
          have hp' : p (t.get ⟨n, Nat.lt_of_succ_lt_succ hi⟩) = true := hp
          have hfirst' : ∀ j (hj : j < n),
              p (t.get ⟨j, Nat.lt_trans hj (Nat.lt_of_succ_lt_succ hi)⟩) = false :=
            fun j hj => hfirst (j + 1) (Nat.succ_lt_succ hj)
          simp [List.find?, ha]
          exact ih n (Nat.lt_of_succ_lt_succ hi) hp' hfirst'

/-- On a successful serialization, a first match, and a non-throwing
callback, `checkAction` returns the mode-adjusted match result. -/
theorem checkAction_result_of_match (st : VigilState) (input : VigilInput)
    (s : String) (cat : RuleCategory) (rs : RuleSet)
    (hs : serializeInput input = some s)
    (hm : firstMatch s = some (cat, rs))
    (hcb : CallbackOk st input) :
    (checkAction st input).result = matchResult st cat rs := by
  simp only [checkAction, hs, hm]
  cases hv : st.violationCallback with
  | none => rfl
  | some cb =>
      have hq := hcb cb hv (matchResult st cat rs)
      by_cases hd : rs.decision = .ALLOW
      · simp [hd]
      · simp [hd, hq]

/-- C1: the evaluator scans the eight categories (and their patterns) in the
fixed declaration order of `RULE_SETS` and stops at the first match: whenever
category `i` has a matching pattern and no earlier-declared category does,
the returned rule is category `i` — later categories are never the reported
rule even if they would also match.  (Stated for callbacks that do not
themselves throw; a throwing callback is the separately analysed defect C4.) -/
theorem checkAction_first_category_wins
    (st : VigilState) (input : VigilInput) (s : String) (i : Nat)
    (hi : i < RULE_SETS.length)
    (hs : serializeInput input = some s)
    (hm : matchesRuleSet (RULE_SETS.get ⟨i, hi⟩).2 s = true)
    (hfirst : ∀ j (hj : j < i),
      matchesRuleSet (RULE_SETS.get ⟨j, Nat.lt_trans hj hi⟩).2 s = false)
    (hcb : CallbackOk st input) :
    (checkAction st input).result.rule = some (RULE_SETS.get ⟨i, hi⟩).1 := by
  have hfm : firstMatch s = some (RULE_SETS.get ⟨i, hi⟩) := by
    unfold firstMatch
    exact find_first_eq (fun cr => matchesRuleSet cr.2 s) RULE_SETS i hi hm hfirst
  have h := checkAction_result_of_match st input s
    (RULE_SETS.get ⟨i, hi⟩).1 (RULE_SETS.get ⟨i, hi⟩).2 hs hfm hcb
  rw [h]; rfl

/-- Witness for C1: an SSRF request reports the earliest (first) category. -/
theorem checkAction_first_category_wins_witness :
    serializeInput { params := some (.str "169.254.169.254") } = some "169.254.169.254"
    ∧ matchesRuleSet (RULE_SETS.get ⟨0, by decide⟩).2 "169.254.169.254" = true
    ∧ (checkAction initialState { params := some (.str "169.254.169.254") }).result.rule
        = some RuleCategory.ssrf :=
  ⟨rfl, by decide,
   checkAction_first_category_wins initialState _ "169.254.169.254" 0 (by decide) rfl
     (by decide) (fun j hj => absurd hj (Nat.not_lt_zero j)) (fun _ h => Option.noConfusion h)⟩

/-- C2: on a match, the returned decision is the matched category's
configured decision exactly when the mode is `enforce` and `ALLOW` under
`warn`/`log`, while the matched category is reported in every mode; and a
mode change via `configure` is observable by the next evaluation —
`configure` to `warn` turns a BLOCK-producing request into ALLOW and
`configure` back to `enforce` restores BLOCK. -/
theorem checkAction_mode_semantics
    (st : VigilState) (input : VigilInput) (s : String)
    (cat : RuleCategory) (rs : RuleSet)
    (hs : serializeInput input = some s)
    (hm : firstMatch s = some (cat, rs))
    (hcb : CallbackOk st input) :
    ((checkAction st input).result.decision
        = if st.currentMode = .enforce then rs.decision else .ALLOW)
    ∧ (checkAction st input).result.rule = some cat
    ∧ (rs.decision = .BLOCK →
        (checkAction (configure st { mode := some .warn }) input).result.decision = .ALLOW
        ∧ (checkAction (configure (configure st { mode := some .warn })
             { mode := some .enforce }) input).result.decision = .BLOCK) := by
  have h1 := checkAction_result_of_match st input s cat rs hs hm hcb
  have h2 := checkAction_result_of_match (configure st { mode := some .warn })
    input s cat rs hs hm hcb
  have h3 := checkAction_result_of_match
    (configure (configure st { mode := some .warn }) { mode := some .enforce })
    input s cat rs hs hm hcb
  refine ⟨by rw [h1]; rfl, by rw [h1]; rfl, fun hd => ⟨?_, ?_⟩⟩
  · rw [h2]; simp [matchResult, configure]
  · rw [h3]; simp [matchResult, configure, hd]

/-- Witness for C2: a destructive request BLOCKs under `enforce`, ALLOWs
after configuring `warn` (still reporting the category), and BLOCKs again
after configuring `enforce`. -/
theorem checkAction_mode_semantics_witness :
    serializeInput shredInput = some "shred"
    ∧ firstMatch "shred" = some (.destructive, destructiveSet)
    ∧ initialState.currentMode = .enforce
    ∧ (checkAction initialState shredInput).result.decision = .BLOCK
    ∧ (checkAction initialState shredInput).result.rule = some .destructive
    ∧ (checkAction (configure initialState { mode := some .warn })
         shredInput).result.decision = .ALLOW
    ∧ (checkAction (configure (configure initialState { mode := some .warn })
         { mode := some .enforce }) shredInput).result.decision = .BLOCK := by
  have h := checkAction_mode_semantics initialState shredInput "shred"
    .destructive destructiveSet rfl rfl (fun _ h => Option.noConfusion h)
  exact ⟨rfl, rfl, rfl, h.1, h.2.1, (h.2.2 rfl).1, (h.2.2 rfl).2⟩

/-- C4 (defect evidence): a violation callback that raises an error is caught
by `checkAction`'s generic `catch` block, which *replaces* the already
computed BLOCK record with the fail-open parsing-error record — the computed
decision is suppressed, contrary to the spec's isolation requirement.  The
same request without a callback is BLOCKed. -/
theorem callback_throw_suppresses_decision :
    (checkAction throwCbState shredInput).result = parseErrorResult
    ∧ (checkAction initialState shredInput).result.decision = .BLOCK
    ∧ (checkAction initialState shredInput).result.rule = some .destructive
    ∧ parseErrorResult.decision = .ALLOW
    ∧ parseErrorResult.rule = none
    ∧ parseErrorResult.confidence = 0.5 :=
  ⟨rfl, by decide, by decide, rfl, rfl, rfl⟩

/-- C5: when input normalization fails (`JSON.stringify` throws on the params
structure), `checkAction` still returns a decision record rather than
propagating the fault: decision ALLOW, rule none, confidence 0.5, risk level
medium, and the parsing-error reason. -/
theorem checkAction_serialization_failure_fail_open
    (st : VigilState) (input : VigilInput)
    (hs : serializeInput input = none) :
    (checkAction st input).result.decision = .ALLOW
    ∧ (checkAction st input).result.rule = none
    ∧ (checkAction st input).result.confidence = 0.5
    ∧ (checkAction st input).result.risk_level = .medium
    ∧ (checkAction st input).result.reason
        = "Input parsing error — allowing with reduced confidence." := by
  simp only [checkAction, hs]
  exact ⟨rfl, rfl, rfl, rfl, rfl⟩

/-- Witness for C5: a cyclic params structure yields the fail-open record. -/
theorem checkAction_serialization_failure_fail_open_witness :
    serializeInput cyclicInput = none
    ∧ (checkAction initialState cyclicInput).result.decision = .ALLOW
    ∧ (checkAction initialState cyclicInput).result.rule = none
    ∧ (checkAction initialState cyclicInput).result.confidence = 0.5 := by
  have h := checkAction_serialization_failure_fail_open initialState cyclicInput rfl
  exact ⟨rfl, h.1, h.2.1, h.2.2.1⟩

/-- C6: on a match, the violation callback is invoked — with the computed
result record and the original request — exactly when a callback is
registered and the matched category's *configured* decision is not ALLOW
(the mode-adjusted decision plays no role, so the callback also fires under
`warn`/`log`); otherwise no invocation happens. -/
theorem checkAction_callback_invocation
    (st : VigilState) (input : VigilInput) (s : String)
    (cat : RuleCategory) (rs : RuleSet)
    (hs : serializeInput input = some s)
    (hm : firstMatch s = some (cat, rs)) :
    ((checkAction st input).callbackCall = some (matchResult st cat rs, input)
      ↔ st.violationCallback ≠ none ∧ rs.decision ≠ .ALLOW)
    ∧ (¬(st.violationCallback ≠ none ∧ rs.decision ≠ .ALLOW) →
        (checkAction st input).callbackCall = none) := by
  simp only [checkAction, hs, hm]
  cases hv : st.violationCallback with
  | none => simp
  | some cb =>
      by_cases hd : rs.decision = .ALLOW
      · simp [hd]
      · cases ht : cb (matchResult st cat rs) input <;> simp [hd, ht]

/-- Witness for C6: in `warn` mode with a registered callback, a destructive
request still triggers the callback, with the (mode-adjusted, ALLOW) result
record and the original request. -/
theorem checkAction_callback_invocation_witness :
    warnCbState.currentMode = .warn
    ∧ destructiveSet.decision ≠ .ALLOW
    ∧ (checkAction warnCbState shredInput).callbackCall
        = some (matchResult warnCbState .destructive destructiveSet, shredInput)
    ∧ (matchResult warnCbState .destructive destructiveSet).decision = .ALLOW
    ∧ (matchResult warnCbState .destructive destructiveSet).rule = some .destructive := by
  have h := checkAction_callback_invocation warnCbState shredInput "shred"
    .destructive destructiveSet rfl rfl
  exact ⟨rfl, by decide, h.1.mpr ⟨fun hn => Option.noConfusion hn, by decide⟩, rfl, rfl⟩

/-- C7 counterexample: a request whose text matches a credential-leak pattern
(`sk-` + 22 alphanumerics) but also matches the earlier-declared destructive
category is BLOCKed with rule `destructive` under `enforce` — not ESCALATEd
as `credential_leak` — because of first-match-wins. -/
theorem credential_match_can_report_earlier_category :
    matchesRuleSet credentialLeakSet "shred sk-abcdefghijklmnopqrstuv" = true
    ∧ serializeInput dualMatchInput = some "shred sk-abcdefghijklmnopqrstuv"
    ∧ initialState.currentMode = .enforce
    ∧ (checkAction initialState dualMatchInput).result.decision = .BLOCK
    ∧ (checkAction initialState dualMatchInput).result.rule = some .destructive
    ∧ Decision.BLOCK ≠ Decision.ESCALATE
    ∧ some RuleCategory.destructive ≠ some RuleCategory.credential_leak :=
  ⟨by decide, rfl, rfl, by decide, by decide, by decide, by decide⟩

/-- C7 (amended): a request whose normalized text matches a credential-leak
pattern *and no pattern of any earlier-declared category* is ESCALATEd under
`enforce` with rule `credential_leak` (callback assumed non-throwing, cf. C4). -/
theorem credential_escalates_without_earlier_match
    (st : VigilState) (input : VigilInput) (s : String)
    (hs : serializeInput input = some s)
    (hmode : st.currentMode = .enforce)
    (hcb : CallbackOk st input)
    (hcred : matchesRuleSet credentialLeakSet s = true)
    (hearlier : (RULE_SETS.take 7).all (fun cr => !(matchesRuleSet cr.2 s)) = true) :
    (checkAction st input).result.decision = .ESCALATE
    ∧ (checkAction st input).result.rule = some .credential_leak := by
  have hall :
      matchesRuleSet ssrfSet s = false
      ∧ matchesRuleSet destructiveSet s = false
      ∧ matchesRuleSet exfiltrationSet s = false
      ∧ matchesRuleSet sqlInjectionSet s = false
      ∧ matchesRuleSet pathTraversalSet s = false
      ∧ matchesRuleSet promptInjectionSet s = false
      ∧ matchesRuleSet encodingAttackSet s = false := by
    simpa [RULE_SETS, List.all_cons, Bool.and_eq_true, Bool.not_eq_true'] using hearlier
  have hfirst : ∀ j (hj : j < 7),
      matchesRuleSet (RULE_SETS.get ⟨j, Nat.lt_trans hj (by decide)⟩).2 s = false := by
    intro j hj
    rcases j with _ | _ | _ | _ | _ | _ | _ | j
    · exact hall.1
    · exact hall.2.1
    · exact hall.2.2.1
    · exact hall.2.2.2.1
    · exact hall.2.2.2.2.1
    · exact hall.2.2.2.2.2.1
    · exact hall.2.2.2.2.2.2
    · exact absurd hj (by omega)
  have hfm : firstMatch s = some (.credential_leak, credentialLeakSet) := by
    unfold firstMatch
    exact find_first_eq (fun cr => matchesRuleSet cr.2 s) RULE_SETS 7 (by decide) hcred hfirst
  have h := checkAction_result_of_match st input s .credential_leak credentialLeakSet hs hfm hcb
  rw [h]
  exact ⟨by simp [matchResult, hmode, credentialLeakSet], rfl⟩

/-- Witness for C7 (amended): a pure credential leak ESCALATEs. -/
theorem credential_escalates_without_earlier_match_witness :
    serializeInput credOnlyInput = some "sk-abcdefghijklmnopqrstuv"
    ∧ matchesRuleSet credentialLeakSet "sk-abcdefghijklmnopqrstuv" = true
    ∧ (checkAction initialState credOnlyInput).result.decision = .ESCALATE
    ∧ (checkAction initialState credOnlyInput).result.rule = some .credential_leak := by
  have h := credential_escalates_without_earlier_match initialState credOnlyInput
    "sk-abcdefghijklmnopqrstuv" rfl rfl (fun _ hc => Option.noConfusion hc) (by decide)
    (by decide)
  exact ⟨rfl, by decide, h.1, h.2⟩

/-- C8 counterexample: a request with no tool, no params and no context is
*not* necessarily allowed — the agent field alone can trip a pattern. -/
theorem no_tool_params_context_not_always_allowed :
    agentOnlyInput.tool = none
    ∧ agentOnlyInput.params = none
    ∧ agentOnlyInput.context = none
    ∧ (checkAction initialState agentOnlyInput).result.decision = .BLOCK
    ∧ (checkAction initialState agentOnlyInput).result.rule = some .destructive :=
  ⟨rfl, rfl, rfl, by decide, by decide⟩

/-- C8 (amended): whenever the normalized string matches no pattern of any
category, `checkAction` returns decision ALLOW, rule none, confidence 0.7,
risk level low and the no-match reason — in particular for the request with
*every* field absent. -/
theorem checkAction_no_match_allows
    (st : VigilState) (input : VigilInput) (s : String)
    (hs : serializeInput input = some s)
    (hnm : firstMatch s = none) :
    (checkAction st input).result.decision = .ALLOW
    ∧ (checkAction st input).result.rule = none
    ∧ (checkAction st input).result.confidence = 0.7
    ∧ (checkAction st input).result.risk_level = .low
    ∧ (checkAction st input).result.reason = "No rule patterns matched." := by
  simp only [checkAction, hs, hnm]
  exact ⟨rfl, rfl, rfl, rfl, rfl⟩

/-- Witness for C8 (amended): the empty request normalizes to the empty
string, no pattern matches it, and the result is the no-match ALLOW. -/
theorem checkAction_no_match_allows_witness :
    serializeInput emptyInput = some ""
    ∧ firstMatch "" = none
    ∧ (checkAction initialState emptyInput).result.decision = .ALLOW
    ∧ (checkAction initialState emptyInput).result.rule = none
    ∧ (checkAction initialState emptyInput).result.confidence = 0.7 := by
  have h := checkAction_no_match_allows initialState emptyInput "" rfl rfl
  exact ⟨rfl, rfl, h.1, h.2.1, h.2.2.1⟩

/-- C3 counterexample: a present-but-empty params string contributes no
segment at all (JS falsiness), not an empty segment: `{ params: "",
tool: "read" }` normalizes to `"read"`, while the claim's contract
(`serializeClaimC3`) yields `" read"` with a leading empty segment. -/
theorem present_but_empty_params_omitted :
    serializeInput emptyParamsInput = some "read"
    ∧ serializeClaimC3 emptyParamsInput = some " read"
    ∧ serializeInput emptyParamsInput ≠ serializeClaimC3 emptyParamsInput :=
  ⟨rfl, rfl, by decide⟩

/-- C3 (amended): the normalized string is the space-join, in the fixed
order params / context / tool / agent / role, of the present segments —
where a string-typed field that is present but empty is omitted (and an
empty params string does not fall back to the alias), an empty *sequence*
context still contributes an empty segment, a structured params mapping
contributes its JSON text (or fails the whole normalization), and the
other rules are as the claim states them (`serializeSpecAmended`). -/
theorem serializeInput_eq_spec (input : VigilInput) :
    serializeInput input = serializeSpecAmended input := by
  have hstr : ∀ x : Option String, strParts x = (stringSegment x).toList := by
    intro x
    rcases x with _ | t
    · rfl
    · by_cases h : t = "" <;> simp [strParts, stringSegment, h]
  have hctx : ∀ c : Option ContextVal, contextParts c = (contextSegment c).toList := by
    intro c
    rcases c with _ | (s | items)
    · rfl
    · by_cases h : s = "" <;> simp [contextParts, contextSegment, h]
    · rfl
  have hpar : ∀ pv : Option ParamsVal,
      paramsParts pv = (paramsSegment pv).map Option.toList := by
    intro pv
    rcases pv with _ | (s | v)
    · rfl
    · by_cases h : s = "" <;> simp [paramsParts, paramsSegment, h]
    · cases hv : stringify v <;> simp [paramsParts, paramsSegment, hv]
  have hfm : ∀ (a : Option String) (l : List (Option String)),
      List.filterMap id (a :: l) = a.toList ++ List.filterMap id l := by
    intro a l
    cases a <;> simp [List.filterMap_cons]
  unfold serializeInput serializeSpecAmended
  rw [hpar]
  cases hp : paramsSegment (paramsOfInput input) with
  | none => rfl
  | some pseg =>
      simp only [Option.map_some, hfm, List.filterMap_nil, List.append_nil,
        hstr, hctx, List.append_assoc]
      rfl

/-- Witness for C3 (amended), at a request exercising structured params, a
sequence context, tool, agent and role. -/
theorem serializeInput_eq_spec_witness :
    serializeInput richInput = serializeSpecAmended richInput
    ∧ serializeInput richInput = some "\x7b\"k\":\"v\"\x7d hi there write a1 helper" :=
  ⟨serializeInput_eq_spec richInput, rfl⟩

/-- C10: the `parameters` alias never contributes when `params` is present —
the normalized string is unchanged by any value of the alias — and when
`params` is absent the alias takes its place; the two fields never both
contribute. -/
theorem params_alias_only_fallback (input : VigilInput) :
    (∀ p, input.params = some p →
      ∀ q, serializeInput { input with parameters := q }
        = serializeInput { input with parameters := none })
    ∧ (input.params = none →
      serializeInput input
        = serializeInput { input with params := input.parameters, parameters := none }) := by
  constructor
  · intro p hp q
    simp [serializeInput, paramsOfInput, hp]
  · intro hp
    cases hq : input.parameters with
    | none => simp [serializeInput, paramsOfInput, hp, hq]
    | some pv => simp [serializeInput, paramsOfInput, hp, hq]

/-- Witness for C10: with both `params := "x"` and `parameters := "y"`
present, the alias is ignored and the normalized string is `"x"`. -/
theorem params_alias_only_fallback_witness :
    aliasBothInput.params = some (.str "x")
    ∧ serializeInput aliasBothInput = serializeInput { aliasBothInput with parameters := none }
    ∧ serializeInput aliasBothInput = some "x" :=
  ⟨rfl, (params_alias_only_fallback aliasBothInput).1 (.str "x") rfl (some (.str "y")), rfl⟩

/-- C9 counterexample: the spread `{ ...BUILTIN_POLICIES[name] }` copies the
`rules` *reference*, so a caller mutation through the returned document's
nested `rules` block reaches the stored built-in, and a subsequent
`loadPolicy("restrictive")` returns the mutated content, not the original. -/
theorem loadPolicy_nested_rules_shared :
    (let r1 := loadPolicy initialHeap .restrictive
     let h2 := writeRules r1.2 (getDoc r1.2 r1.1).rulesRef mutatedRules
     let r3 := loadPolicy h2 .restrictive
     getRules r3.2 (getDoc r3.2 r3.1).rulesRef = mutatedRules)
    ∧ mutatedRules ≠ restrictiveRules :=
  ⟨rfl, by decide⟩

/-- C9 (amended): `loadPolicy` on a built-in name returns a *fresh top-level*
document — not the stored built-in object, and mutating a top-level field of
the returned copy leaves the built-in unchanged — but the nested `rules`
block is shared by reference: the copy carries the same `rules` reference,
and a write through it is visible at the built-in's `rules` reference. -/
theorem loadPolicy_fresh_top_level_shared_rules
    (t : PolicyTemplate) (newName : String) (rb : PolicyRules) :
    (loadPolicy initialHeap t).1 ≠ builtinAddr t
    ∧ getDoc (loadPolicy initialHeap t).2 (loadPolicy initialHeap t).1
        = getDoc (loadPolicy initialHeap t).2 (builtinAddr t)
    ∧ (getDoc (setDocName (loadPolicy initialHeap t).2 (loadPolicy initialHeap t).1 newName)
         (builtinAddr t)).name = (getDoc initialHeap (builtinAddr t)).name
    ∧ getRules (writeRules (loadPolicy initialHeap t).2
         (getDoc (loadPolicy initialHeap t).2 (loadPolicy initialHeap t).1).rulesRef rb)
         ((getDoc (loadPolicy initialHeap t).2 (builtinAddr t)).rulesRef) = rb := by
  cases t <;> exact ⟨by decide, rfl, rfl, rfl⟩

/-- Witness for C9 (amended), instantiated at the `restrictive` template, a
concrete renaming and a concrete rules write. -/
theorem loadPolicy_fresh_top_level_shared_rules_witness :
    (loadPolicy initialHeap .restrictive).1 ≠ builtinAddr .restrictive
    ∧ (getDoc (setDocName (loadPolicy initialHeap .restrictive).2
         (loadPolicy initialHeap .restrictive).1 "renamed")
         (builtinAddr .restrictive)).name = "restrictive"
    ∧ getRules (writeRules (loadPolicy initialHeap .restrictive).2
         (getDoc (loadPolicy initialHeap .restrictive).2
           (loadPolicy initialHeap .restrictive).1).rulesRef mutatedRules)
         ((getDoc (loadPolicy initialHeap .restrictive).2
           (builtinAddr .restrictive)).rulesRef) = mutatedRules := by
  have h := loadPolicy_fresh_top_level_shared_rules .restrictive "renamed" mutatedRules
  exact ⟨h.1, h.2.2.1, h.2.2.2⟩

end Vigil
